import Mathlib

/-
Verification of the agent-gym interaction core: a shallow embedding of the
tool-call codec (agents/deepseekAgent.py), the environment step functions
(envs/CommandLineEnvironment.py, envs/PythonInterpreterEnvironment.py,
envs/NLPEnvironment.py, envs/EnhancedCommandLineEnvironment.py), the retrying
env-LLM client (NLPEnvironment._call_env_llm), the episode loop
(runners/base_runner.py) and the workspace lifecycle
(CommandLineEnvironment.reset/cleanup).

Python strings are modelled as Lean String / List Char; Python floats appearing
as rewards are modelled as Rat (every reward constant in the source, -0.5,
-0.1, 0.0, 1.0 and the 0.5 success threshold, is handled exactly here; the
comparisons the claims involve are exact in binary floating point as well).
Python exceptions are modelled with explicit Except / Option values; external
effects (the filesystem, subprocesses, HTTP endpoints) are oracle parameters.
-/

namespace AgentGym

/-! ## Python string primitives

`pyIsWs` is the ASCII part of Python's `str.strip()` / `str.split()`
whitespace class (the source only ever manipulates ASCII protocol markers). -/

def pyIsWs (c : Char) : Bool :=
  c = ' ' || c = '\t' || c = '\n' || c = '\r' || c = '\x0b' || c = '\x0c'

/-- Python `s.strip()` on a character list. -/
def pyStripL (s : List Char) : List Char :=
  ((s.dropWhile pyIsWs).reverse.dropWhile pyIsWs).reverse

/-- Python `s.strip()`. -/
def pyStrip (s : String) : String :=
  String.mk (pyStripL s.data)

/-- Python `s.split(c)` for a single-character separator: always returns at
least one piece, and `"".split(c) = [""]`. -/
def splitOnCharL (c : Char) : List Char → List (List Char)
  | [] => [[]]
  | x :: rest =>
    let r := splitOnCharL c rest
    if x = c then [] :: r
    else
      match r with
      | [] => [[x]]
      | h :: t => (x :: h) :: t

/-- Python `s.split()` with no argument: split on whitespace runs, dropping
empty pieces. `acc` holds the current token reversed. -/
def splitWsAux : List Char → List Char → List (List Char)
  | [], acc => if acc.isEmpty then [] else [acc.reverse]
  | c :: rest, acc =>
    if pyIsWs c then
      if acc.isEmpty then splitWsAux rest []
      else acc.reverse :: splitWsAux rest []
    else splitWsAux rest (c :: acc)

/-- All indices (counting from `i`) at which `pat` occurs as a substring.
Occurrences of the fixed markers used by the codec cannot overlap themselves,
so this coincides with `re.finditer`'s non-overlapping scan. -/
def occurrences (pat : List Char) : List Char → Nat → List Nat
  | [], i => if pat.isEmpty then [i] else []
  | c :: rest, i =>
    let tailOccs := occurrences pat rest (i + 1)
    if pat.isPrefixOf (c :: rest) then i :: tailOccs else tailOccs

/-- Index of the first occurrence of `pat` in `s`, if any. -/
def firstIndexOf? (pat s : List Char) : Option Nat :=
  (occurrences pat s 0).head?

/-! ## JSON values (the arguments payloads handled by `json.loads`/`json.dumps`)

Number literals are modelled as integers; no claim of this development
involves non-integer numeric payloads. -/

inductive Json where
  | null
  | bool (b : Bool)
  | num (n : Int)
  | str (s : String)
  | arr (xs : List Json)
  | obj (kvs : List (String × Json))

/-- Python dict insertion: an existing key keeps its position and gets the new
value, a new key is appended. `json.loads` builds objects this way, so object
key lists are duplicate-free in insertion order. -/
def dictInsert (kvs : List (String × Json)) (k : String) (v : Json) :
    List (String × Json) :=
  if kvs.any (fun p => p.1 == k) then
    kvs.map (fun p => if p.1 == k then (k, v) else p)
  else kvs ++ [(k, v)]

/-- Python `d[k]` / `k in d` lookup on a decoded object; `none` on a missing
key or a non-object value (where Python raises KeyError / TypeError). -/
def Json.getKey? (j : Json) (k : String) : Option Json :=
  match j with
  | .obj kvs => (kvs.filter (fun p => p.1 == k)).head?.map (fun p => p.2)
  | _ => none

def Json.isObj : Json → Bool
  | .obj _ => true
  | _ => false

/-- Python truthiness of a JSON-decoded value (used by
`response.get("finished", False)` style checks in NLPEnvironment). -/
def Json.truthy : Json → Bool
  | .null => false
  | .bool b => b
  | .num n => n != 0
  | .str s => !s.isEmpty
  | .arr xs => !xs.isEmpty
  | .obj kvs => !kvs.isEmpty

/-! ### json.loads -/

def hexVal? (c : Char) : Option Nat :=
  if '0' ≤ c && c ≤ '9' then some (c.toNat - 48)
  else if 'a' ≤ c && c ≤ 'f' then some (c.toNat - 87)
  else if 'A' ≤ c && c ≤ 'F' then some (c.toNat - 55)
  else none

def isJsonWs (c : Char) : Bool :=
  c = ' ' || c = '\t' || c = '\n' || c = '\r'

def skipJsonWs (s : List Char) : List Char := s.dropWhile isJsonWs

def isDigitCh (c : Char) : Bool := '0' ≤ c && c ≤ '9'

/-- Body of a JSON string literal after the opening quote; returns the decoded
string and the input after the closing quote. Raw control characters are
rejected as in Python's strict mode. -/
def parseStrBody (fuel : Nat) (acc : List Char) (s : List Char) :
    Option (String × List Char) :=
  match fuel, s with
  | 0, _ => none
  | _, [] => none
  | f + 1, c :: rest =>
    if c = '"' then some (String.mk acc.reverse, rest)
    else if c = '\\' then
      match rest with
      | [] => none
      | e :: rest2 =>
        if e = '"' then parseStrBody f ('"' :: acc) rest2
        else if e = '\\' then parseStrBody f ('\\' :: acc) rest2
        else if e = '/' then parseStrBody f ('/' :: acc) rest2
        else if e = 'b' then parseStrBody f ('\x08' :: acc) rest2
        else if e = 'f' then parseStrBody f ('\x0c' :: acc) rest2
        else if e = 'n' then parseStrBody f ('\n' :: acc) rest2
        else if e = 'r' then parseStrBody f ('\r' :: acc) rest2
        else if e = 't' then parseStrBody f ('\t' :: acc) rest2
        else if e = 'u' then
          match rest2 with
          | a :: b :: c2 :: d :: rest3 =>
            match hexVal? a, hexVal? b, hexVal? c2, hexVal? d with
            | some ha, some hb, some hc, some hd =>
              parseStrBody f
                (Char.ofNat (((ha * 16 + hb) * 16 + hc) * 16 + hd) :: acc) rest3
            | _, _, _, _ => none
          | _ => none
        else none
    else if c.toNat < 32 then none
    else parseStrBody f (c :: acc) rest

def digitsVal (ds : List Char) : Nat :=
  ds.foldl (fun acc c => acc * 10 + (c.toNat - 48)) 0

/-- An integer JSON number token. Tokens continuing with `.`/`e`/`E`
(non-integer numbers) are not modelled and fail here. -/
def parseIntTok (s : List Char) : Option (Int × List Char) :=
  let p : Bool × List Char := match s with
    | '-' :: r => (true, r)
    | _ => (false, s)
  let ds := p.2.takeWhile isDigitCh
  let rest := p.2.dropWhile isDigitCh
  if ds.isEmpty then none
  else if ds.length > 1 && ds.headD '0' = '0' then none
  else
    match rest with
    | c :: _ =>
      if c = '.' || c = 'e' || c = 'E' then none
      else some (if p.1 then -(digitsVal ds : Int) else (digitsVal ds : Int), rest)
    | [] => some (if p.1 then -(digitsVal ds : Int) else (digitsVal ds : Int), rest)

mutual

/-- Recursive-descent JSON value parser (the model of `json.loads`), fueled;
`jsonLoads` supplies ample fuel. -/
def parseJsonVal : Nat → List Char → Option (Json × List Char)
  | 0, _ => none
  | f + 1, s0 =>
    match skipJsonWs s0 with
    | [] => none
    | c :: rest =>
      if c = '"' then (parseStrBody f [] rest).map (fun p => (Json.str p.1, p.2))
      else if c = '\x7b' then
        match skipJsonWs rest with
        | '\x7d' :: rest2 => some (Json.obj [], rest2)
        | s2 =>
          (parseObjPairs f s2).map (fun p =>
            (Json.obj (p.1.foldl (fun acc kv => dictInsert acc kv.1 kv.2) []), p.2))
      else if c = '[' then
        match skipJsonWs rest with
        | ']' :: rest2 => some (Json.arr [], rest2)
        | s2 => (parseArrVals f s2).map (fun p => (Json.arr p.1, p.2))
      else if c = 't' then
        if ['r', 'u', 'e'].isPrefixOf rest then some (Json.bool true, rest.drop 3)
        else none
      else if c = 'f' then
        if ['a', 'l', 's', 'e'].isPrefixOf rest then some (Json.bool false, rest.drop 4)
        else none
      else if c = 'n' then
        if ['u', 'l', 'l'].isPrefixOf rest then some (Json.null, rest.drop 3)
        else none
      else (parseIntTok (c :: rest)).map (fun p => (Json.num p.1, p.2))

/-- One or more `"key": value` pairs followed by the closing brace. -/
def parseObjPairs : Nat → List Char → Option (List (String × Json) × List Char)
  | 0, _ => none
  | f + 1, s =>
    match s with
    | '"' :: rest =>
      match parseStrBody f [] rest with
      | none => none
      | some (k, rest2) =>
        match skipJsonWs rest2 with
        | ':' :: rest3 =>
          match parseJsonVal f rest3 with
          | none => none
          | some (v, rest4) =>
            match skipJsonWs rest4 with
            | ',' :: rest5 =>
              (parseObjPairs f (skipJsonWs rest5)).map
                (fun p => ((k, v) :: p.1, p.2))
            | '\x7d' :: rest5 => some ([(k, v)], rest5)
            | _ => none
        | _ => none
    | _ => none

/-- One or more values followed by the closing bracket. -/
def parseArrVals : Nat → List Char → Option (List Json × List Char)
  | 0, _ => none
  | f + 1, s =>
    match parseJsonVal f s with
    | none => none
    | some (v, rest) =>
      match skipJsonWs rest with
      | ',' :: rest2 => (parseArrVals f rest2).map (fun p => (v :: p.1, p.2))
      | ']' :: rest2 => some ([v], rest2)
      | _ => none

end

/-- Model of Python `json.loads` (returns `none` where Python raises
`json.JSONDecodeError`). -/
def jsonLoads (s : String) : Option Json :=
  match parseJsonVal (2 * s.length + 2) s.data with
  | some (v, rest) => if (skipJsonWs rest).isEmpty then some v else none
  | none => none

/-! ### json.dumps (compact separators, ensure_ascii=False) -/

def hexDigit (n : Nat) : Char :=
  if n < 10 then Char.ofNat (48 + n) else Char.ofNat (87 + n)

def hex4 (n : Nat) : String :=
  String.mk [hexDigit (n / 4096 % 16), hexDigit (n / 256 % 16),
             hexDigit (n / 16 % 16), hexDigit (n % 16)]

def jsonEscChar (c : Char) : String :=
  if c = '"' then "\\\""
  else if c = '\\' then "\\\\"
  else if c = '\n' then "\\n"
  else if c = '\t' then "\\t"
  else if c = '\r' then "\\r"
  else if c = '\x08' then "\\b"
  else if c = '\x0c' then "\\f"
  else if c.toNat < 32 then "\\u" ++ hex4 c.toNat
  else String.mk [c]

def jsonQuote (s : String) : String :=
  "\"" ++ String.join (s.data.map jsonEscChar) ++ "\""

mutual

/-- Model of `json.dumps(v, ensure_ascii=False, separators=(",", ":"))` as
used by the agent when serializing tool-call arguments. -/
def Json.dumps : Json → String
  | .null => "null"
  | .bool true => "true"
  | .bool false => "false"
  | .num n => toString n
  | .str s => jsonQuote s
  | .arr xs => "[" ++ String.intercalate "," (dumpsList xs) ++ "]"
  | .obj kvs => "\x7b" ++ String.intercalate "," (dumpsPairs kvs) ++ "\x7d"

def dumpsList : List Json → List String
  | [] => []
  | x :: xs => Json.dumps x :: dumpsList xs

def dumpsPairs : List (String × Json) → List String
  | [] => []
  | (k, v) :: rest => (jsonQuote k ++ ":" ++ Json.dumps v) :: dumpsPairs rest

end

mutual

/-- Python `repr()` of a JSON-decoded value (quote/escape details of nested
strings beyond the quote character are not modelled; the claims never depend
on them). -/
def pyRepr : Json → String
  | .null => "None"
  | .bool true => "True"
  | .bool false => "False"
  | .num n => toString n
  | .str s => "\x27" ++ s ++ "\x27"
  | .arr xs => "[" ++ String.intercalate ", " (pyReprList xs) ++ "]"
  | .obj kvs => "\x7b" ++ String.intercalate ", " (pyReprPairs kvs) ++ "\x7d"

def pyReprList : List Json → List String
  | [] => []
  | x :: xs => pyRepr x :: pyReprList xs

def pyReprPairs : List (String × Json) → List String
  | [] => []
  | (k, v) :: rest => ("\x27" ++ k ++ "\x27: " ++ pyRepr v) :: pyReprPairs rest

end

/-- Python `str()` of a JSON-decoded value (as interpolated by f-strings in
the source). -/
def pyStr (j : Json) : String :=
  match j with
  | .str s => s
  | v => pyRepr v

/-! ## Actions and tool calls (core/types.py action dicts, OpenAI format)

`DeepSeekAgent._parse_tool_calls` stores `tool_data["name"]` unchecked, so the
name field is an arbitrary JSON value; `arguments` is the `json.dumps` of the
decoded arguments value. -/

structure ToolFunction where
  name : Json
  arguments : String

structure ToolCall where
  id : String
  type : String
  function : ToolFunction

/-- An agent action dict: `{"tool_calls": [...]}` or `{"content": ...}`. -/
structure Action where
  toolCalls : List ToolCall := []
  content : Option String := none

/-- `_is_tool_call` (identical in CommandLineEnvironment and
PythonInterpreterEnvironment): the dict has a truthy (non-empty)
`tool_calls` entry. -/
def Action.isToolCall (a : Action) : Bool :=
  !a.toolCalls.isEmpty

/-- Models Python `str(action)` for an action dict carrying no `content` key;
no claim depends on this text. -/
def actionStr (a : Action) : String :=
  s!"<action with {a.toolCalls.length} tool calls>"

/-! ## Tool-Call Codec: decode (DeepSeekAgent._parse_tool_calls)

The regex scan `re.finditer(r"<tool_call>\s*")` finds every occurrence of the
literal open marker (the marker cannot overlap itself or the close marker, and
the trailing `\s*` never swallows a following marker, so the match list is
exactly `occurrences openMarker`). For each open marker, indexed by
`enumerate`, the first close marker after it is located
(`re.search(r"\s*</tool_call>")`; the leading `\s*` only moves the match start
inside whitespace that `strip()` removes anyway); a block with no close marker
is skipped by `continue`, still consuming its enumeration index. -/

def openMarker : List Char := "<tool_call>".data

def closeMarker : List Char := "</tool_call>".data

/-- Loop body of `_parse_tool_calls` over the enumerated open-marker
positions. A body that fails `json.loads` is skipped; a decoded body that is
not an object, or lacks `"name"`/`"arguments"`, raises (KeyError/TypeError,
not caught by the `except json.JSONDecodeError` handler), modelled as
`.error`; the raised messages are schematic. -/
def parseToolCallsGo (content : List Char) :
    List (Nat × Nat) → Except String (List ToolCall)
  | [] => .ok []
  | ip :: rest =>
    let startPos := ip.2 + openMarker.length
    match firstIndexOf? closeMarker (content.drop startPos) with
    | none => parseToolCallsGo content rest
    | some endOff =>
      match jsonLoads (String.mk (pyStripL ((content.drop startPos).take endOff))) with
      | none => parseToolCallsGo content rest
      | some td =>
        if td.isObj then
          match td.getKey? "name" with
          | none => .error "KeyError: \x27name\x27"
          | some nm =>
            match td.getKey? "arguments" with
            | none => .error "KeyError: \x27arguments\x27"
            | some args =>
              (parseToolCallsGo content rest).map
                (ToolCall.mk s!"call_{ip.1}" "function" ⟨nm, args.dumps⟩ :: ·)
        else .error "TypeError: non-object tool_call payload"

/-- `DeepSeekAgent._parse_tool_calls`: `.ok calls` is a normal return,
`.error` an uncaught exception escaping the method. -/
def parseToolCalls (content : String) : Except String (List ToolCall) :=
  parseToolCallsGo content.data ((occurrences openMarker content.data 0).enum)

/-- Declarative per-block decoder: what one delimited block at open-marker
index `i`, position `pos`, contributes to the decoded call list. `none` for a
block with no close marker or a body `json.loads` rejects (both skipped avatars
in the loop) and for the payloads on which the loop raises instead. -/
def decodeBlock (content : List Char) (i pos : Nat) : Option ToolCall :=
  let startPos := pos + openMarker.length
  match firstIndexOf? closeMarker (content.drop startPos) with
  | none => none
  | some endOff =>
    match jsonLoads (String.mk (pyStripL ((content.drop startPos).take endOff))) with
    | some td =>
      match td.getKey? "name", td.getKey? "arguments" with
      | some nm, some args => some ⟨s!"call_{i}", "function", ⟨nm, args.dumps⟩⟩
      | _, _ => none
    | none => none

/-! ## Tool-Call Codec: encode (DeepSeekAgent._format_tool_responses) -/

def toolResponseBlock (name content : String) : String :=
  "<tool_response name=\"" ++ name ++ "\">" ++ content ++ "</tool_response>"

/-- `DeepSeekAgent._format_tool_responses`: one call wraps the whole
environment response; several calls split the *stripped* response on newlines,
take line `i` for call `i`, and fall back to the entire (unstripped) response
for calls beyond the line count. -/
def formatToolResponses (lastToolCalls : List ToolCall) (envResponse : String) :
    String :=
  match lastToolCalls with
  | [] => envResponse
  | [tc] => toolResponseBlock (pyStr tc.function.name) envResponse
  | tcs =>
    let lines := (splitOnCharL '\n' (pyStripL envResponse.data)).map String.mk
    String.intercalate "\n" (tcs.enum.map (fun ic =>
      toolResponseBlock (pyStr ic.2.function.name) (lines.getD ic.1 envResponse)))

/-- The encoding rule exactly as claim C3 words it: the combined result string
itself is split on line boundaries (no stripping) and line `i` goes to call
`i`, with calls beyond the line count receiving the entire result. -/
def formatToolResponsesClaimed (lastToolCalls : List ToolCall)
    (envResponse : String) : String :=
  match lastToolCalls with
  | [] => envResponse
  | [tc] => toolResponseBlock (pyStr tc.function.name) envResponse
  | tcs =>
    let lines := (splitOnCharL '\n' envResponse.data).map String.mk
    String.intercalate "\n" (tcs.enum.map (fun ic =>
      toolResponseBlock (pyStr ic.2.function.name) (lines.getD ic.1 envResponse)))

/-- Positional assignment of lines to calls, written as the amended claim
describes it: call number `i` (counting issued calls from 0) receives line `i`
of the stripped result, or the whole original result when there is no line
`i`. -/
def assignLines (lines : List String) (whole : String) :
    Nat → List ToolCall → List String
  | _, [] => []
  | i, tc :: rest =>
    toolResponseBlock (pyStr tc.function.name) (lines.getD i whole)
      :: assignLines lines whole (i + 1) rest

/-- The amended claim's encoding rule: as claimed, but the result is stripped
of leading and trailing whitespace before the line split. -/
def formatToolResponsesAmended (lastToolCalls : List ToolCall)
    (envResponse : String) : String :=
  match lastToolCalls with
  | [] => envResponse
  | [tc] => toolResponseBlock (pyStr tc.function.name) envResponse
  | tcs =>
    String.intercalate "\n"
      (assignLines ((splitOnCharL '\n' (pyStripL envResponse.data)).map String.mk)
        envResponse 0 tcs)

/-! ## Python exceptions reaching a handler

Each constructor is one of the exception classes the source's `except` clauses
distinguish; the payload is `str(e)` (for `json.JSONDecodeError` the message
text is schematic). -/

inductive PyExc where
  | timeoutError (msg : String)
  | requestTimeout (msg : String)
  | requestExc (msg : String)
  | envError (msg : String)
  | jsonDecodeError (msg : String)
  | other (msg : String)

def PyExc.msg : PyExc → String
  | .timeoutError m => m
  | .requestTimeout m => m
  | .requestExc m => m
  | .envError m => m
  | .jsonDecodeError m => m
  | .other m => m

/-- Whether an `except TimeoutError` clause (core.base.TimeoutError, the class
the Timeout Guard raises) catches this exception. -/
def PyExc.isCoreTimeout : PyExc → Bool
  | .timeoutError _ => true
  | _ => false

def jsonDecodeErrMsg : String := "Expecting value: line 1 column 1 (char 0)"

/-- The shared `except TimeoutError ... except Exception ...` tail of
`CommandLineEnvironment.step` and `PythonInterpreterEnvironment.step`. -/
def staticStepHandler (e : PyExc) : String × Rat × Bool :=
  if e.isCoreTimeout then ("Timeout error: " ++ e.msg, -(1 / 2 : Rat), false)
  else ("Execution error: " ++ e.msg, -(1 / 10 : Rat), false)

/-! ## CommandLineEnvironment

`toolImpl` is the oracle for the eight built-in tool implementations (file
system and subprocess effects; any exception one of them lets escape, such as
a KeyError on a missing argument or the guard firing during a tool, surfaces
as its `.error`). `verified` is the oracle outcome of
`_verify_task_completion`, which resolves every exception inside itself to
`False` and therefore never raises. -/

def cmdKnownTools : List String :=
  ["read_file", "write_file", "list_directory", "execute_shell",
   "create_directory", "delete_file", "move_file", "copy_file"]

/-- `CommandLineEnvironment._call_function`: dispatch on the tool name; an
unknown name raises `EnvironmentError`. -/
def cmdCallFunction (toolImpl : String → Json → Except PyExc String)
    (name : Json) (args : Json) : Except PyExc String :=
  match name with
  | .str s =>
    if cmdKnownTools.contains s then toolImpl s args
    else .error (.envError ("Unknown function: " ++ s))
  | nm => .error (.envError ("Unknown function: " ++ pyStr nm))

/-- Loop of `CommandLineEnvironment._execute_tool_call`: `json.loads` each
call's serialized arguments (a failure raises out of the method — there is no
per-call handler), dispatch, and collect the results. -/
def cmdExecuteToolCallGo (toolImpl : String → Json → Except PyExc String) :
    List ToolCall → Except PyExc (List String)
  | [] => .ok []
  | tc :: rest =>
    match jsonLoads tc.function.arguments with
    | none => .error (.jsonDecodeError jsonDecodeErrMsg)
    | some args =>
      match cmdCallFunction toolImpl tc.function.name args with
      | .error e => .error e
      | .ok r => (cmdExecuteToolCallGo toolImpl rest).map (r :: ·)

/-- `CommandLineEnvironment._execute_tool_call`: results joined by newlines;
`.error` is an exception escaping to `step`'s handlers. -/
def cmdExecuteToolCall (toolImpl : String → Json → Except PyExc String)
    (calls : List ToolCall) : Except PyExc String :=
  (cmdExecuteToolCallGo toolImpl calls).map (String.intercalate "\n")

/-- `CommandLineEnvironment._evaluate_final_answer`. -/
def cmdFinalObs (a : Action) : String :=
  "Agent\x27s final answer: " ++ a.content.getD "No answer provided"

/-- `CommandLineEnvironment.step` (inherited unchanged by
EnhancedCommandLineEnvironment). `sigalrm = some m` models the Timeout Guard's
SIGALRM interrupting the body at a point not covered by an inner handler, with
`m` the guard's message; the guard firing inside `_execute_tool_call` instead
surfaces as a `.timeoutError` from `toolImpl`, and firing inside
`_verify_task_completion` is swallowed there into `verified = false`. -/
def cmdStep (a : Action) (sigalrm : Option String)
    (toolImpl : String → Json → Except PyExc String) (verified : Bool) :
    String × Rat × Bool :=
  match sigalrm with
  | some m => ("Timeout error: " ++ m, -(1 / 2 : Rat), false)
  | none =>
    if a.isToolCall then
      match cmdExecuteToolCall toolImpl a.toolCalls with
      | .ok obs => (obs, 0, false)
      | .error e => staticStepHandler e
    else
      (cmdFinalObs a, if verified then 1 else 0, true)

/-! ## PythonInterpreterEnvironment

`runCode` is the oracle for `_run_python_code` (which converts every sandbox
or transport failure into a result string and never raises). `verified` is the
outcome of `_verify_task_completion(action)`; the math-verify library it calls
runs outside any local handler, so an exception there escapes to `step`,
modelled by `.error`. -/

/-- Loop of `PythonInterpreterEnvironment._execute_tool_call`: `.error` is an
exception reaching the method's own `except Exception` handler. -/
def pyExecuteToolCallGo (runCode : Json → String) :
    List ToolCall → Except PyExc (List String)
  | [] => .ok []
  | tc :: rest =>
    match jsonLoads tc.function.arguments with
    | none => .error (.jsonDecodeError jsonDecodeErrMsg)
    | some args =>
      match tc.function.name with
      | .str "run_python_code" =>
        match args.getKey? "code" with
        | none => .error (.other "KeyError: \x27code\x27")
        | some code => (pyExecuteToolCallGo runCode rest).map (runCode code :: ·)
      | nm =>
        (pyExecuteToolCallGo runCode rest).map
          (("Error: Unknown function \x27" ++ pyStr nm ++ "\x27") :: ·)

/-- `PythonInterpreterEnvironment._execute_tool_call`: the whole loop sits in
one `try`, so the first exception replaces the entire batch result with a
single error string. -/
def pyExecuteToolCall (runCode : Json → String) (calls : List ToolCall) :
    String :=
  match pyExecuteToolCallGo runCode calls with
  | .ok results => String.intercalate "\n\n" results
  | .error e => "Tool execution error: " ++ e.msg

/-- `PythonInterpreterEnvironment._evaluate_final_answer`. -/
def pyFinalObs (a : Action) : String :=
  "Agent\x27s final answer: " ++
    (match a.content with
     | some c => c
     | none => actionStr a)

/-- `PythonInterpreterEnvironment.step`; `sigalrm` as in `cmdStep`. -/
def pyStep (a : Action) (sigalrm : Option String) (runCode : Json → String)
    (verified : Except PyExc Bool) : String × Rat × Bool :=
  match sigalrm with
  | some m => ("Timeout error: " ++ m, -(1 / 2 : Rat), false)
  | none =>
    if a.isToolCall then
      (pyExecuteToolCall runCode a.toolCalls, 0, false)
    else
      match verified with
      | .ok b => (pyFinalObs a, if b then 1 else 0, true)
      | .error e => staticStepHandler e

/-! ## NLPEnvironment: the retrying client (_call_env_llm) -/

/-- The terminal error raised when the last attempt fails, by failure kind:
`requests.exceptions.Timeout` becomes a core TimeoutError, other
`RequestException`s and all remaining exceptions become EnvironmentErrors
wrapping the cause. -/
def retryTerminal (maxRetries : Nat) (e : PyExc) : PyExc :=
  match e with
  | .requestTimeout _ =>
    .timeoutError s!"Environment LLM request timeout after {maxRetries} attempts"
  | .requestExc m => .envError ("Environment LLM request failed: " ++ m)
  | e2 => .envError ("Unexpected error calling environment LLM: " ++ e2.msg)

/-- `for attempt in range(max_retries)` body of
`NLPEnvironment._call_env_llm`. `attempt i` is the outcome of the i-th
request (`_stream_request`/`_non_stream_request`, including its response
parsing). Returns the call's result (`none` when the loop falls through, as
Python does for `max_retries = 0`) together with the list of backoff sleep
durations performed, in order. -/
def callEnvLLMGo (attempt : Nat → Except PyExc Json) (maxRetries : Nat) :
    Nat → Nat → Option (Except PyExc Json) × List Nat
  | _, 0 => (none, [])
  | i, rem + 1 =>
    match attempt i with
    | .ok v => (some (.ok v), [])
    | .error e =>
      if i == maxRetries - 1 then (some (.error (retryTerminal maxRetries e)), [])
      else
        let r := callEnvLLMGo attempt maxRetries (i + 1) rem
        (r.1, 2 ^ i :: r.2)

/-- `NLPEnvironment._call_env_llm` with its retry/backoff discipline. -/
def callEnvLLM (attempt : Nat → Except PyExc Json) (maxRetries : Nat) :
    Option (Except PyExc Json) × List Nat :=
  callEnvLLMGo attempt maxRetries 0 maxRetries

/-! ## NLPEnvironment: response parsing and step -/

/-- `NLPEnvironment._parse_env_output` from the point where the payload has
been located: `jsonStr?` is the text captured by the `<output>` wrapper regex
or the bare-JSON fallback (`none` when neither pattern matched), `raw` the
full model output. A payload missing `"type"` or `"content"` is a hard
EnvironmentError. -/
def parseEnvOutput (jsonStr? : Option String) (raw : String) :
    Except PyExc Json :=
  match jsonStr? with
  | none => .error (.envError ("Invalid env-llm response format: " ++ raw))
  | some s =>
    match jsonLoads s with
    | none => .error (.envError "Invalid JSON in env-llm response")
    | some j =>
      if (j.getKey? "type").isNone then
        .error (.envError "Missing \x27type\x27 field in env-llm response")
      else if (j.getKey? "content").isNone then
        .error (.envError "Missing \x27content\x27 field in env-llm response")
      else .ok j

/-- Conversation state of NLPEnvironment (`current_turn`, `history`). -/
structure NLPState where
  currentTurn : Nat
  history : List String

def reprArgsStr (kvs : List (String × Json)) : String :=
  String.intercalate ", " (kvs.map (fun kv => kv.1 ++ "=" ++ pyRepr kv.2))

/-- One tool call as rendered by `NLPEnvironment._format_agent_input`: decoded
arguments are shown `k=repr(v)`; a `json.JSONDecodeError` is absorbed into
`(invalid_args)`; decoded non-dict arguments make `.items()` raise. -/
def formatToolCallStr (tc : ToolCall) : Except PyExc String :=
  match jsonLoads tc.function.arguments with
  | none => .ok (pyStr tc.function.name ++ "(invalid_args)")
  | some (.obj kvs) => .ok (pyStr tc.function.name ++ "(" ++ reprArgsStr kvs ++ ")")
  | some _ => .error (.other "AttributeError: items")

/-- `NLPEnvironment._format_agent_input`. -/
def formatAgentInput (a : Action) : Except PyExc String :=
  if a.isToolCall then
    (a.toolCalls.mapM formatToolCallStr).map
      (fun strs => "Tool calls: " ++ String.intercalate "; " strs)
  else
    match a.content with
    | some c => .ok ("Message: " ++ c)
    | none => .ok (actionStr a)

/-- `NLPEnvironment._process_env_response`: an `"nlp"` turn carries
finished/success flags deciding reward and done; a `"tool_response"` turn is
always non-terminal with reward 0; anything else raises. -/
def processEnvResponse (resp : Json) (st : NLPState) :
    Except PyExc ((String × Rat × Bool) × NLPState) :=
  match resp.getKey? "type" with
  | none => .error (.other "KeyError: \x27type\x27")
  | some t =>
    match resp.getKey? "content" with
    | none => .error (.other "KeyError: \x27content\x27")
    | some cv =>
      let content := pyStr cv
      match t with
      | .str "nlp" =>
        let finished := ((resp.getKey? "finished").getD (.bool false)).truthy
        let success := ((resp.getKey? "success").getD (.bool false)).truthy
        let st2 : NLPState :=
          { st with history := st.history ++ ["Environment: " ++ content] }
        if finished then .ok ((content, if success then 1 else 0, true), st2)
        else .ok ((content, 0, false), st2)
      | .str "tool_response" =>
        .ok ((content, 0, false),
             { st with history := st.history ++ ["Tool Result: " ++ content] })
      | t2 => .error (.envError ("Unknown response type: " ++ pyStr t2))

/-- The `except TimeoutError ... except Exception ...` tail of
`NLPEnvironment.step`. -/
def nlpStepHandler (e : PyExc) : String × Rat × Bool :=
  if e.isCoreTimeout then ("Timeout error: " ++ e.msg, -(1 / 2 : Rat), false)
  else ("Environment error: " ++ e.msg, -(1 / 10 : Rat), false)

/-- `NLPEnvironment.step`. `llmOutcome` is the result of
`_call_env_llm(query)` — a parsed env-LLM output or the exception it raised
(the Timeout Guard firing during the blocking request surfaces here as a
`.timeoutError`). State mutations made before a raise persist, as in the
source. `_validate_action` and `_build_query` only shape the query string the
`llmOutcome` oracle already accounts for. -/
def nlpStep (st : NLPState) (a : Action) (llmOutcome : Except PyExc Json) :
    (String × Rat × Bool) × NLPState :=
  let st1 : NLPState := { st with currentTurn := st.currentTurn + 1 }
  match formatAgentInput a with
  | .error e => (nlpStepHandler e, st1)
  | .ok inp =>
    let st2 : NLPState := { st1 with history := st1.history ++ ["Agent: " ++ inp] }
    match llmOutcome with
    | .error e => (nlpStepHandler e, st2)
    | .ok resp =>
      match processEnvResponse resp st2 with
      | .ok r => r
      | .error e => (nlpStepHandler e, st2)

/-! ## EnhancedCommandLineEnvironment._execute_shell -/

/-- `command.strip().split()[0] if command.strip() else ""`. -/
def firstShellToken (cmd : String) : String :=
  let stripped := pyStripL cmd.data
  if stripped.isEmpty then ""
  else
    match splitWsAux stripped [] with
    | [] => ""
    | t :: _ => String.mk t

/-- `EnhancedCommandLineEnvironment._execute_shell`: with an enhanced-format
task and a non-empty allow-list, the first whitespace-separated token is
checked against the list and a rejected command returns an error naming the
allowed commands; otherwise the command goes to the parent implementation
(`superExec`, the oracle for `CommandLineEnvironment._execute_shell`). -/
def enhancedExecuteShell (isEnhanced : Bool)
    (allowedCommands : Option (List String)) (command : String)
    (superExec : String → String) : String :=
  let filtering :=
    isEnhanced &&
      (match allowedCommands with
       | some l => !l.isEmpty
       | none => false)
  if filtering then
    let base := firstShellToken command
    let allowed := allowedCommands.getD []
    if allowed.contains base then superExec command
    else
      "Error: Command \x27" ++ base ++ "\x27 is not allowed. Allowed commands: " ++
        String.intercalate ", " allowed
  else superExec command

/-! ## BaseRunner.run_single_task: episode loop and success rule -/

/-- The observable outcome of one loop turn: the environment step's reward and
done flag, or an exception (from `agent.act` or elsewhere in the turn) that
the runner catches, logs, and breaks on. -/
inductive TurnResult where
  | ok (reward : Rat) (done : Bool)
  | exc (msg : String)

/-- The `while not done and turn_count < max_turns` loop, folding rewards.
`turns n` is the outcome of the (n+1)-th iteration; returns
(total_reward, done, turn_count). -/
def runLoop (turns : Nat → TurnResult) :
    Nat → Nat → Rat → Bool → Rat × Bool × Nat
  | 0, tc, total, done => (total, done, tc)
  | rem + 1, tc, total, done =>
    if done then (total, done, tc)
    else
      match turns tc with
      | .exc _ => (total, done, tc + 1)
      | .ok r d => runLoop turns rem (tc + 1) (total + r) d

structure EpisodeSummary where
  success : Bool
  totalTurns : Nat
  totalReward : Rat

/-- The summary `BaseRunner.run_single_task` computes after the loop:
`success = done and total_reward > 0.5`. -/
def runSingleTaskSummary (turns : Nat → TurnResult) (maxTurns : Nat) :
    EpisodeSummary :=
  let r := runLoop turns maxTurns 0 0 false
  { success := r.2.1 && decide ((1 / 2 : Rat) < r.1),
    totalTurns := r.2.2,
    totalReward := r.1 }

/-! ## Workspace lifecycle (CommandLineEnvironment.reset/cleanup)

The filesystem is a store of temp directories, each a directory id with its
file names; `mkdtemp` allocates a fresh id. -/

structure FileSys where
  nextId : Nat
  dirs : List (Nat × List String)

def FileSys.lookup (fs : FileSys) (d : Nat) : Option (List String) :=
  ((fs.dirs.filter (fun p => p.1 == d)).head?).map (fun p => p.2)

/-- `tempfile.mkdtemp`: a fresh empty directory. -/
def mkdtemp (fs : FileSys) : Nat × FileSys :=
  (fs.nextId, ⟨fs.nextId + 1, (fs.nextId, []) :: fs.dirs⟩)

/-- `shutil.rmtree` (the success path; the failure branch only prints a
warning). -/
def rmtree (fs : FileSys) (d : Nat) : FileSys :=
  ⟨fs.nextId, fs.dirs.filter (fun p => p.1 != d)⟩

structure CmdEnvState where
  workspaceDir : Option Nat

/-- `CommandLineEnvironment.cleanup`: remove the workspace if it is set and
still exists. -/
def cmdCleanup (st : CmdEnvState) (fs : FileSys) : CmdEnvState × FileSys :=
  match st.workspaceDir with
  | some d =>
    if (fs.lookup d).isSome then (⟨none⟩, rmtree fs d) else (st, fs)
  | none => (st, fs)

/-- `_setup_environment` run against directory `d`: the task's env script is
external code, modelled by the list of file names it creates
(`[]` when the task has no `env` script). -/
def setupEnv (fs : FileSys) (d : Nat) (setupFiles : List String) : FileSys :=
  ⟨fs.nextId,
   fs.dirs.map (fun p => if p.1 == d then (p.1, p.2 ++ setupFiles) else p)⟩

/-- `CommandLineEnvironment.reset`: cleanup, then a fresh `mkdtemp` workspace,
then the task's setup script. -/
def cmdReset (st : CmdEnvState) (fs : FileSys) (setupFiles : List String) :
    CmdEnvState × FileSys :=
  let r1 := cmdCleanup st fs
  let r2 := mkdtemp r1.2
  (⟨some r2.1⟩, setupEnv r2.2 r2.1 setupFiles)

/-- A file acquiring a name in the current workspace (e.g. through the
`write_file` tool or `execute_shell`). -/
def writeFileInWorkspace (st : CmdEnvState) (fs : FileSys) (name : String) :
    FileSys :=
  match st.workspaceDir with
  | some d =>
    ⟨fs.nextId,
     fs.dirs.map (fun p => if p.1 == d then (p.1, p.2 ++ [name]) else p)⟩
  | none => fs

/-! ## Concrete fixtures used by witnesses and counterexamples -/

/-- A tool-implementation oracle that always succeeds. -/
def okToolImpl : String → Json → Except PyExc String :=
  fun nm _ => .ok ("ran " ++ nm)

/-- A tool-implementation oracle interrupted by the Timeout Guard. -/
def timeoutToolImpl : String → Json → Except PyExc String :=
  fun _ _ => .error (.timeoutError "Operation timed out after 30 seconds")

def sampleCall : ToolCall :=
  ⟨"call_0", "function", ⟨.str "read_file", "\x7b\"file_path\":\"a.txt\"\x7d"⟩⟩

def badArgsCall : ToolCall :=
  ⟨"call_1", "function", ⟨.str "read_file", "not json"⟩⟩

def msgAction : Action := ⟨[], some "hi"⟩

def toolAction : Action := ⟨[sampleCall], none⟩

def badArgsAction : Action := ⟨[badArgsCall], none⟩

/-! ## Claims -/

/-- C1: in every environment family, a step whose work exceeds the timeout
budget — the guard's TimeoutError reaching step's handler, whether it fires
directly in the body (`sigalrm`), inside `_execute_tool_call`, or out of the
env-LLM call chain — returns the triple (timeout-describing observation,
reward -0.5, done = false); step returns a triple rather than raising (all
step models are total functions). -/
theorem C1_timeout_returns_penalty_triple
    (a : Action) (toolImpl : String → Json → Except PyExc String)
    (verified : Bool) (runCode : Json → String) (pv : Except PyExc Bool)
    (st : NLPState) (m : String) :
    cmdStep a (some m) toolImpl verified
      = ("Timeout error: " ++ m, -(1 / 2 : Rat), false)
    ∧ pyStep a (some m) runCode pv
      = ("Timeout error: " ++ m, -(1 / 2 : Rat), false)
    ∧ (∀ inp, formatAgentInput a = .ok inp →
        (nlpStep st a (.error (.timeoutError m))).1
          = ("Timeout error: " ++ m, -(1 / 2 : Rat), false))
    ∧ (a.isToolCall = true →
        cmdExecuteToolCall toolImpl a.toolCalls = .error (.timeoutError m) →
        cmdStep a none toolImpl verified
          = ("Timeout error: " ++ m, -(1 / 2 : Rat), false)) := by
  refine ⟨rfl, rfl, ?_, ?_⟩
  · intro inp hfmt
    simp [nlpStep, hfmt, nlpStepHandler, PyExc.isCoreTimeout, PyExc.msg]
  · intro hTC hE
    simp [cmdStep, hTC, hE, staticStepHandler, PyExc.isCoreTimeout, PyExc.msg]

theorem C1_timeout_returns_penalty_triple_witness :
    (cmdStep msgAction (some "Operation timed out after 30 seconds") okToolImpl
        false
      = ("Timeout error: Operation timed out after 30 seconds",
         -(1 / 2 : Rat), false))
    ∧ (cmdStep toolAction none timeoutToolImpl false
      = ("Timeout error: Operation timed out after 30 seconds",
         -(1 / 2 : Rat), false)) :=
  ⟨(C1_timeout_returns_penalty_triple msgAction okToolImpl false (fun _ => "")
      (.ok true) ⟨0, []⟩ "Operation timed out after 30 seconds").1,
   (C1_timeout_returns_penalty_triple toolAction timeoutToolImpl false
      (fun _ => "") (.ok true) ⟨0, []⟩
      "Operation timed out after 30 seconds").2.2.2 rfl rfl⟩

/-- C5: for the static environment families, when the step body runs to
completion a tool-call action yields reward 0 with done = false, and a
final-answer action yields reward 1.0 when the task verification succeeds,
0.0 otherwise, with done = true. -/
theorem C5_static_reward_terminality_rule
    (a : Action) (toolImpl : String → Json → Except PyExc String)
    (verified : Bool) (runCode : Json → String) (pb : Bool) (obs : String) :
    (a.isToolCall = true →
      cmdExecuteToolCall toolImpl a.toolCalls = .ok obs →
      cmdStep a none toolImpl verified = (obs, 0, false))
    ∧ (a.isToolCall = true →
      pyStep a none runCode (.ok pb)
        = (pyExecuteToolCall runCode a.toolCalls, 0, false))
    ∧ (a.isToolCall = false →
      cmdStep a none toolImpl verified
        = (cmdFinalObs a, if verified then 1 else 0, true))
    ∧ (a.isToolCall = false →
      pyStep a none runCode (.ok pb)
        = (pyFinalObs a, if pb then 1 else 0, true)) := by
  refine ⟨?_, ?_, ?_, ?_⟩
  · intro hTC hE; simp [cmdStep, hTC, hE]
  · intro hTC; simp [pyStep, hTC]
  · intro hTC; simp [cmdStep, hTC]
  · intro hTC; simp [pyStep, hTC]

theorem C5_static_reward_terminality_rule_witness :
    (cmdStep toolAction none okToolImpl false = ("ran read_file", 0, false))
    ∧ (cmdStep msgAction none okToolImpl true
        = ("Agent\x27s final answer: hi", 1, true))
    ∧ (pyStep msgAction none (fun _ => "") (.ok false)
        = ("Agent\x27s final answer: hi", 0, true)) :=
  ⟨(C5_static_reward_terminality_rule toolAction okToolImpl false (fun _ => "")
      false "ran read_file").1 rfl rfl,
   by
    have h := (C5_static_reward_terminality_rule msgAction okToolImpl true
      (fun _ => "") false "").2.2.1 rfl
    simpa using h,
   by
    have h := (C5_static_reward_terminality_rule msgAction okToolImpl true
      (fun _ => "") false "").2.2.2 rfl
    simpa using h⟩

/-- C9: step is total at the public interface — a non-timeout exception
raised while processing an action (a malformed tool-call argument string in
the command-line environment, a verification failure in the interpreter
environment, any generic failure in the dialogue environment, including the
proxy response missing its required "type" field after the retry loop wraps
it) is converted inside step to an error-describing observation with reward
-0.1 and done = false, a value outside the spec's reward taxonomy; no
exception propagates (each step model is a total function into triples, and
every error input is mapped to a triple here). -/
theorem C9_nontimeout_exception_gives_penalty_triple
    (a : Action) (toolImpl : String → Json → Except PyExc String)
    (verified : Bool) (runCode : Json → String) (st : NLPState) (e : PyExc)
    (raw : String) :
    (e.isCoreTimeout = false → a.isToolCall = true →
      cmdExecuteToolCall toolImpl a.toolCalls = .error e →
      cmdStep a none toolImpl verified
        = ("Execution error: " ++ e.msg, -(1 / 10 : Rat), false))
    ∧ (e.isCoreTimeout = false → a.isToolCall = false →
      pyStep a none runCode (.error e)
        = ("Execution error: " ++ e.msg, -(1 / 10 : Rat), false))
    ∧ (e.isCoreTimeout = false → ∀ inp, formatAgentInput a = .ok inp →
      (nlpStep st a (.error e)).1
        = ("Environment error: " ++ e.msg, -(1 / 10 : Rat), false))
    ∧ (∀ toolImpl2, cmdStep badArgsAction none toolImpl2 verified
        = ("Execution error: " ++ jsonDecodeErrMsg, -(1 / 10 : Rat), false))
    ∧ (callEnvLLM (fun _ => parseEnvOutput (some "\x7b\"content\":\"hi\"\x7d") raw) 3
        = (some (.error (.envError
            ("Unexpected error calling environment LLM: " ++
             "Missing \x27type\x27 field in env-llm response"))), [1, 2]))
    ∧ (∀ inp, formatAgentInput a = .ok inp →
      (nlpStep st a (.error (.envError
          ("Unexpected error calling environment LLM: " ++
           "Missing \x27type\x27 field in env-llm response")))).1
        = ("Environment error: Unexpected error calling environment LLM: " ++
           "Missing \x27type\x27 field in env-llm response",
           -(1 / 10 : Rat), false)) := by
  refine ⟨?_, ?_, ?_, ?_, ?_, ?_⟩
  · intro hNT hTC hE
    simp [cmdStep, hTC, hE, staticStepHandler, hNT]
  · intro hNT hTC
    simp [pyStep, hTC, staticStepHandler, hNT]
  · intro hNT inp hfmt
    simp [nlpStep, hfmt, nlpStepHandler, hNT]
  · intro toolImpl2
    rfl
  · rfl
  · intro inp hfmt
    simp [nlpStep, hfmt, nlpStepHandler, PyExc.isCoreTimeout, PyExc.msg]

theorem C9_nontimeout_exception_gives_penalty_triple_witness :
    (cmdStep badArgsAction none okToolImpl false
      = ("Execution error: " ++ jsonDecodeErrMsg, -(1 / 10 : Rat), false))
    ∧ ((nlpStep ⟨0, []⟩ msgAction (.error (.envError "boom"))).1
      = ("Environment error: boom", -(1 / 10 : Rat), false)) :=
  ⟨(C9_nontimeout_exception_gives_penalty_triple msgAction okToolImpl false
      (fun _ => "") ⟨0, []⟩ (.envError "boom") "").2.2.2.1 okToolImpl,
   (C9_nontimeout_exception_gives_penalty_triple msgAction okToolImpl false
      (fun _ => "") ⟨0, []⟩ (.envError "boom") "").2.2.1 rfl "Message: hi" rfl⟩

/-- C10: with an enhanced-format task supplying a non-empty allow-list,
`_execute_shell` compares only the first whitespace-separated token of the
command against the list — an unlisted token returns an error naming the
allowed commands without invoking the underlying shell executor, a listed
token passes the whole command through; with the list absent (legacy task) or
empty, every command passes through unfiltered. -/
theorem C10_allowed_commands_filter
    (cmd : String) (allowed : List String) (superExec : String → String) :
    (allowed ≠ [] → allowed.contains (firstShellToken cmd) = false →
      enhancedExecuteShell true (some allowed) cmd superExec
        = "Error: Command \x27" ++ firstShellToken cmd ++
          "\x27 is not allowed. Allowed commands: " ++
          String.intercalate ", " allowed)
    ∧ (allowed.contains (firstShellToken cmd) = true →
      enhancedExecuteShell true (some allowed) cmd superExec = superExec cmd)
    ∧ (∀ isEnh, enhancedExecuteShell isEnh none cmd superExec = superExec cmd)
    ∧ (∀ isEnh,
      enhancedExecuteShell isEnh (some []) cmd superExec = superExec cmd) := by
  refine ⟨?_, ?_, ?_, ?_⟩
  · intro hne hmem
    have hmem2 : firstShellToken cmd ∉ allowed := by simpa using hmem
    simp [enhancedExecuteShell, hne, hmem2, List.isEmpty_iff]
  · intro hmem
    have hmem2 : firstShellToken cmd ∈ allowed := by simpa using hmem
    have hne : allowed ≠ [] := by
      intro h; subst h; simp at hmem2
    simp [enhancedExecuteShell, hne, hmem2, List.isEmpty_iff]
  · intro isEnh
    simp [enhancedExecuteShell]
  · intro isEnh
    simp [enhancedExecuteShell]

theorem C10_allowed_commands_filter_witness :
    (enhancedExecuteShell true (some ["ls", "cat"]) "rm -rf x"
        (fun c => "ran " ++ c)
      = "Error: Command \x27rm\x27 is not allowed. Allowed commands: ls, cat")
    ∧ (enhancedExecuteShell true (some ["ls", "cat"]) "ls -la"
        (fun c => "ran " ++ c) = "ran ls -la")
    ∧ (enhancedExecuteShell true none "rm -rf x" (fun c => "ran " ++ c)
      = "ran rm -rf x") :=
  ⟨by
    have h := (C10_allowed_commands_filter "rm -rf x" ["ls", "cat"]
      (fun c => "ran " ++ c)).1 (by decide) (by decide)
    simpa using h,
   (C10_allowed_commands_filter "ls -la" ["ls", "cat"]
      (fun c => "ran " ++ c)).2.1 (by decide),
   (C10_allowed_commands_filter "rm -rf x" ["ls", "cat"]
      (fun c => "ran " ++ c)).2.2.1 true⟩

/-- C7: the retrying env-LLM client makes up to 3 attempts; a first-attempt
success returns immediately with no sleeps; an endpoint failing twice then
succeeding returns the successful result after exactly the two backoff sleeps
2^0 = 1 and 2^1 = 2 seconds; when every attempt fails, the final attempt's
failure becomes the terminal error `retryTerminal` builds — a TimeoutError
naming the timeout for `requests.Timeout`, an EnvironmentError embedding the
cause for other transport failures (spelled out in the last two conjuncts). -/
theorem C7_retry_backoff_discipline
    (attempt attemptF attemptS : Nat → Except PyExc Json) (v w : Json)
    (e0 e1 f0 f1 f2 : PyExc) (m : String)
    (h0 : attempt 0 = .error e0) (h1 : attempt 1 = .error e1)
    (h2 : attempt 2 = .ok v)
    (g0 : attemptF 0 = .error f0) (g1 : attemptF 1 = .error f1)
    (g2 : attemptF 2 = .error f2)
    (hS : attemptS 0 = .ok w) :
    callEnvLLM attempt 3 = (some (.ok v), [1, 2])
    ∧ callEnvLLM attemptF 3 = (some (.error (retryTerminal 3 f2)), [1, 2])
    ∧ callEnvLLM attemptS 3 = (some (.ok w), [])
    ∧ retryTerminal 3 (.requestExc m)
        = .envError ("Environment LLM request failed: " ++ m)
    ∧ retryTerminal 3 (.requestTimeout m)
        = .timeoutError "Environment LLM request timeout after 3 attempts" := by
  refine ⟨?_, ?_, ?_, rfl, rfl⟩
  · simp [callEnvLLM, callEnvLLMGo, h0, h1, h2]
  · simp [callEnvLLM, callEnvLLMGo, g0, g1, g2]
  · simp [callEnvLLM, callEnvLLMGo, hS]

theorem C7_retry_backoff_discipline_witness :
    callEnvLLM
        (fun i => if i < 2 then .error (.requestTimeout "t") else .ok .null) 3
      = (some (.ok .null), [1, 2])
    ∧ callEnvLLM (fun _ => .error (.requestExc "conn refused")) 3
      = (some (.error (.envError
          "Environment LLM request failed: conn refused")), [1, 2]) :=
  ⟨(C7_retry_backoff_discipline
      (fun i => if i < 2 then .error (.requestTimeout "t") else .ok .null)
      (fun _ => .error (.requestExc "conn refused"))
      (fun _ => .ok .null) .null .null
      (.requestTimeout "t") (.requestTimeout "t")
      (.requestExc "conn refused") (.requestExc "conn refused")
      (.requestExc "conn refused") ""
      rfl rfl rfl rfl rfl rfl rfl).1,
   (C7_retry_backoff_discipline
      (fun i => if i < 2 then .error (.requestTimeout "t") else .ok .null)
      (fun _ => .error (.requestExc "conn refused"))
      (fun _ => .ok .null) .null .null
      (.requestTimeout "t") (.requestTimeout "t")
      (.requestExc "conn refused") (.requestExc "conn refused")
      (.requestExc "conn refused") ""
      rfl rfl rfl rfl rfl rfl rfl).2.1⟩

/-- The two-step episode of the spec's test: rewards 0.0 then 1.0, the second
step terminal. -/
def twoTurnEpisode : Nat → TurnResult := fun n =>
  match n with
  | 0 => .ok 0 false
  | _ => .ok 1 true

/-- C6: the runner reports success exactly when the loop ended with
done = true and the accumulated reward exceeds 0.5; the spec's two-step
episode (rewards 0.0 then 1.0, final done) succeeds in 2 turns with total
reward 1; an episode whose cumulative reward stays ≤ 0.5 is never a success,
whatever its done flag. -/
theorem C6_success_threshold_rule (turns : Nat → TurnResult) (maxTurns : Nat) :
    ((runSingleTaskSummary turns maxTurns).success = true ↔
      ((runLoop turns maxTurns 0 0 false).2.1 = true ∧
        (1 / 2 : Rat) < (runLoop turns maxTurns 0 0 false).1))
    ∧ ((runSingleTaskSummary twoTurnEpisode 20).success = true
        ∧ (runSingleTaskSummary twoTurnEpisode 20).totalTurns = 2
        ∧ (runSingleTaskSummary twoTurnEpisode 20).totalReward = 1)
    ∧ ((runLoop turns maxTurns 0 0 false).1 ≤ (1 / 2 : Rat) →
      (runSingleTaskSummary turns maxTurns).success = false) := by
  have hrun : runLoop twoTurnEpisode 20 0 0 false = (0 + 0 + 1, true, 2) := rfl
  refine ⟨?_, ⟨?_, rfl, ?_⟩, ?_⟩
  · simp [runSingleTaskSummary]
  · simp only [runSingleTaskSummary, hrun]
    norm_num
  · show (0 + 0 + 1 : Rat) = 1
    norm_num
  · intro hle
    have hnot : ¬ ((1 / 2 : Rat) < (runLoop turns maxTurns 0 0 false).1) :=
      not_lt_of_le hle
    simp only [runSingleTaskSummary, decide_eq_false hnot, Bool.and_false]

theorem C6_success_threshold_rule_witness :
    (runSingleTaskSummary twoTurnEpisode 20).success = true
    ∧ ((runLoop twoTurnEpisode 1 0 0 false).1 ≤ (1 / 2 : Rat) →
      (runSingleTaskSummary twoTurnEpisode 1).success = false) :=
  ⟨(C6_success_threshold_rule twoTurnEpisode 20).2.1.1,
   (C6_success_threshold_rule twoTurnEpisode 1).2.2⟩

/-- C8: a second reset on a command-line environment instance deallocates the
entire prior workspace and allocates a fresh one: the new workspace directory
differs from the old, the old directory is gone from the store, and a file
written into the old workspace is absent from the new one (whose contents are
exactly what the task's setup script creates — the hypothesis `hf` states the
setup script does not itself create a file of that name). -/
theorem C8_reset_discards_workspace
    (st : CmdEnvState) (fs : FileSys) (d : Nat) (f : String)
    (setupFiles : List String)
    (hws : st.workspaceDir = some d) (hd : d < fs.nextId)
    (hf : f ∉ setupFiles) :
    ∃ d2,
      (cmdReset st (writeFileInWorkspace st fs f) setupFiles).1.workspaceDir
        = some d2
      ∧ d2 ≠ d
      ∧ (cmdReset st (writeFileInWorkspace st fs f) setupFiles).2.lookup d
        = none
      ∧ (cmdReset st (writeFileInWorkspace st fs f) setupFiles).2.lookup d2
        = some setupFiles
      ∧ f ∉ ((cmdReset st (writeFileInWorkspace st fs f) setupFiles).2.lookup
          d2).getD [] := by
  classical
  set fs1 := writeFileInWorkspace st fs f with hfs1
  have hfs1nextId : fs1.nextId = fs.nextId := by
    simp only [hfs1, writeFileInWorkspace, hws]
  have hfs1keys : ∀ p ∈ fs1.dirs, p.1 < fs.nextId → p.1 < fs.nextId := by
    intro p _ h; exact h
  -- the keys of fs1.dirs are the keys of fs.dirs
  have hkeys : ∀ p ∈ fs1.dirs, ∃ q ∈ fs.dirs, p.1 = q.1 := by
    intro p hp
    simp only [hfs1, writeFileInWorkspace, hws, List.mem_map] at hp
    obtain ⟨q, hq, hpq⟩ := hp
    refine ⟨q, hq, ?_⟩
    by_cases h : q.1 == d <;> simp [h] at hpq <;> simp [← hpq]
  -- after cleanup the state and store, in either branch
  rcases hclean : cmdCleanup st fs1 with ⟨st2, fs2⟩
  have hfs2 : fs2.nextId = fs.nextId ∧ ∀ p ∈ fs2.dirs, ∃ q ∈ fs1.dirs, p = q := by
    simp only [cmdCleanup, hws] at hclean
    by_cases hex : (fs1.lookup d).isSome
    · simp only [hex, if_pos] at hclean
      cases hclean
      refine ⟨hfs1nextId, ?_⟩
      intro p hp
      simp only [rmtree, List.mem_filter] at hp
      exact ⟨p, hp.1, rfl⟩
    · simp only [hex, if_neg, Bool.false_eq_true, not_false_iff] at hclean
      cases hclean
      exact ⟨hfs1nextId, fun p hp => ⟨p, hp, rfl⟩⟩
  -- after cleanup, fs2 has no directory d when the rmtree branch ran;
  -- what we actually need: every key of fs2.dirs that equals d was filtered,
  -- or lookup in fs1 already missed
  have hnod : ∀ p ∈ fs2.dirs, p.1 ≠ d ∨ (fs1.lookup d).isSome = false := by
    simp only [cmdCleanup, hws] at hclean
    by_cases hex : (fs1.lookup d).isSome
    · simp only [hex, if_pos] at hclean
      cases hclean
      intro p hp
      simp only [rmtree, List.mem_filter, bne_iff_ne, ne_eq] at hp
      exact Or.inl hp.2
    · intro p hp
      right
      simpa using hex
  -- unfold the reset
  simp only [cmdReset, hclean]
  refine ⟨fs2.nextId, rfl, ?_, ?_, ?_, ?_⟩
  · -- freshness: d < fs.nextId = fs2.nextId
    intro h
    rw [hfs2.1] at h
    omega
  · -- the old directory is gone
    simp only [mkdtemp, setupEnv, FileSys.lookup]
    have hfilt :
        (((fs2.nextId, ([] : List String)) :: fs2.dirs).map
            (fun p => if p.1 == fs2.nextId then (p.1, p.2 ++ setupFiles) else p)).filter
          (fun p => p.1 == d) = [] := by
      rw [List.filter_eq_nil_iff]
      intro p hp
      simp only [List.mem_map, List.mem_cons] at hp
      obtain ⟨q, hq, hpq⟩ := hp
      have hq1 : p.1 = q.1 := by
        by_cases h : q.1 == fs2.nextId <;> simp [h] at hpq <;> simp [← hpq]
      rcases hq with hq | hq
      · subst hq
        simp only [hq1]
        simp only [beq_iff_eq]
        rw [hfs2.1]
        omega
      · rcases hnod q hq with hne | hmiss
        · simp [hq1, hne]
        · -- lookup missed in fs1: no entry with key d at all in fs1, hence in fs2
          have : q.1 ≠ d := by
            intro hqd
            have hq1' : q ∈ fs1.dirs := by
              obtain ⟨q2, hq2, hqq2⟩ := hfs2.2 q hq
              rw [hqq2]; exact hq2
            have : (fs1.dirs.filter (fun p => p.1 == d)) ≠ [] := by
              intro hnil
              rw [List.filter_eq_nil_iff] at hnil
              exact hnil q hq1' (by simp [hqd])
            have hlk : (fs1.lookup d).isSome := by
              simp only [FileSys.lookup, Option.isSome_map]
              rcases hl : fs1.dirs.filter (fun p => p.1 == d) with _ | ⟨x, xs⟩
              · exact absurd hl this
              · simp [hl]
            rw [hlk] at hmiss
            exact absurd hmiss (by simp)
          simp [hq1, this]
    rw [hfilt]
    rfl
  · -- the fresh directory holds exactly the setup files
    simp only [mkdtemp, setupEnv, FileSys.lookup, List.map_cons, beq_self_eq_true,
      if_pos, List.filter_cons]
    simp
  · -- and the written file is not among them
    simp only [mkdtemp, setupEnv, FileSys.lookup, List.map_cons, beq_self_eq_true,
      if_pos, List.filter_cons]
    simpa using hf

/-- Positional line assignment as `enumerate` renders it equals the recursive
`assignLines` rendering, for any starting index. -/
theorem enumFrom_map_block_eq_assignLines (lines : List String) (whole : String) :
    ∀ (i : Nat) (tcs : List ToolCall),
      (List.enumFrom i tcs).map (fun ic =>
          toolResponseBlock (pyStr ic.2.function.name) (lines.getD ic.1 whole))
        = assignLines lines whole i tcs := by
  intro i tcs
  induction tcs generalizing i with
  | nil => simp [assignLines]
  | cons tc rest ih =>
    simp only [List.enumFrom, List.map_cons, assignLines]
    congr 1
    exact ih (i + 1)

def c3Calls : List ToolCall :=
  [⟨"call_0", "function", ⟨.str "f", "\x7b\x7d"⟩⟩,
   ⟨"call_1", "function", ⟨.str "g", "\x7b\x7d"⟩⟩]

/-- C3 counterexample: with two issued calls and the combined result
"\nA\nB", line 0 of the result is the empty line before "A", so the claim's
rule assigns "" to call 0 and "A" to call 1; the code strips the result first
and assigns "A" to call 0 and "B" to call 1 — the claim's encoding differs
from the code's at this input. -/
theorem C3_counterexample :
    formatToolResponses c3Calls "\nA\nB"
      = "<tool_response name=\"f\">A</tool_response>\n" ++
        "<tool_response name=\"g\">B</tool_response>"
    ∧ formatToolResponsesClaimed c3Calls "\nA\nB"
      = "<tool_response name=\"f\"></tool_response>\n" ++
        "<tool_response name=\"g\">A</tool_response>"
    ∧ formatToolResponses c3Calls "\nA\nB"
      ≠ formatToolResponsesClaimed c3Calls "\nA\nB" := by
  refine ⟨rfl, rfl, ?_⟩
  decide

/-- C3 (amended): encoding tool results for re-injection — with N = 1 the
whole result string is wrapped in a single named response block; with N > 1
the result is first stripped of leading and trailing whitespace, the stripped
text is split on line boundaries, line i is assigned to call i, and every
call whose index is beyond the number of lines receives the entire (original)
result string instead. -/
theorem C3_tool_response_encoding (lastToolCalls : List ToolCall)
    (envResponse : String) :
    formatToolResponses lastToolCalls envResponse
      = formatToolResponsesAmended lastToolCalls envResponse := by
  match lastToolCalls with
  | [] => rfl
  | [tc] => rfl
  | tc1 :: tc2 :: rest =>
    have h := enumFrom_map_block_eq_assignLines
      ((splitOnCharL '\n' (pyStripL envResponse.data)).map String.mk) envResponse
      0 (tc1 :: tc2 :: rest)
    calc formatToolResponses (tc1 :: tc2 :: rest) envResponse
        = String.intercalate "\n"
            ((List.enumFrom 0 (tc1 :: tc2 :: rest)).map (fun ic =>
              toolResponseBlock (pyStr ic.2.function.name)
                (((splitOnCharL '\n' (pyStripL envResponse.data)).map
                    String.mk).getD ic.1 envResponse))) := rfl
      _ = String.intercalate "\n"
            (assignLines
              ((splitOnCharL '\n' (pyStripL envResponse.data)).map String.mk)
              envResponse 0 (tc1 :: tc2 :: rest)) := by rw [h]
      _ = formatToolResponsesAmended (tc1 :: tc2 :: rest) envResponse := rfl

/-- The decode loop, whenever it returns normally, produces exactly the
per-block `decodeBlock` results of the enumerated open-marker positions, in
order. -/
theorem parseToolCallsGo_eq_filterMap (content : List Char) :
    ∀ (l : List (Nat × Nat)) (calls : List ToolCall),
      parseToolCallsGo content l = .ok calls →
      calls = l.filterMap (fun ip => decodeBlock content ip.1 ip.2) := by
  intro l
  induction l with
  | nil =>
    intro calls h
    simp only [parseToolCallsGo] at h
    cases h
    simp
  | cons ip rest ih =>
    intro calls h
    simp only [parseToolCallsGo] at h
    simp only [List.filterMap_cons]
    split at h
    next hclose =>
      have hdb : decodeBlock content ip.1 ip.2 = none := by
        simp only [decodeBlock, hclose]
      simp only [hdb]
      exact ih calls h
    next endOff hclose =>
      split at h
      next hjson =>
        have hdb : decodeBlock content ip.1 ip.2 = none := by
          simp only [decodeBlock, hclose, hjson]
        simp only [hdb]
        exact ih calls h
      next td hjson =>
        split at h
        next hobj =>
          split at h
          next hname => simp at h
          next nm hname =>
            split at h
            next hargs => simp at h
            next args hargs =>
              rcases hrest : parseToolCallsGo content rest with e | calls2
              · rw [hrest] at h
                simp [Except.map] at h
              · rw [hrest] at h
                simp only [Except.map] at h
                cases h
                have hdb : decodeBlock content ip.1 ip.2
                    = some ⟨s!"call_{ip.1}", "function", ⟨nm, args.dumps⟩⟩ := by
                  simp only [decodeBlock, hclose, hjson, hname, hargs]
                simp only [hdb]
                rw [ih calls2 hrest]
        next hobj => simp at h

def c2BadThenGood : String :=
  "<tool_call>oops</tool_call>\n<tool_call>\n" ++
  "\x7b\"name\":\"ls\",\"arguments\":\x7b\x7d\x7d\n</tool_call>"

def c2GoodThenBad : String :=
  "<tool_call>\x7b\"name\":\"ls\",\"arguments\":\x7b\x7d\x7d</tool_call>" ++
  " and <tool_call>oops</tool_call>"

/-- C2 counterexample: (a) on text whose first block is malformed and whose
second is valid, decoding returns exactly one Tool Call but its id is
"call_1", not the "call_0" the claim's sequential numbering requires; (b) a
block whose body parses as the JSON object `{}` does not yield a Tool Call —
the decoder raises an uncaught KeyError instead of returning. -/
theorem C2_counterexample :
    parseToolCalls c2BadThenGood
      = .ok [⟨"call_1", "function", ⟨.str "ls", "\x7b\x7d"⟩⟩]
    ∧ (match parseToolCalls c2BadThenGood with
       | .ok calls => calls.map (fun c => c.id)
       | .error _ => []) ≠ ["call_0"]
    ∧ parseToolCalls "<tool_call>\x7b\x7d</tool_call>"
      = .error "KeyError: \x27name\x27" := by
  refine ⟨rfl, ?_, rfl⟩
  decide

/-- C2 (amended): whenever decoding returns (it raises on a block whose body
parses as JSON without being an object carrying both "name" and "arguments"),
the Tool Calls are exactly the per-block decodings of the open-marker
occurrences in textual order: every block with a close marker whose body
parses as a JSON object with "name" and "arguments" members yields one call,
a block whose body fails JSON parsing (or lacks a close marker) is skipped
without aborting the rest — so text with one valid and one malformed block
decodes to exactly one Tool Call — and each decoded call's id is "call_i"
with i the zero-based index of its opening marker among all opening markers
(ids are not renumbered after a skipped block). -/
theorem C2_tool_call_decoding (content : String) (calls : List ToolCall)
    (h : parseToolCalls content = .ok calls) :
    calls = ((occurrences openMarker content.data 0).enum).filterMap
      (fun ip => decodeBlock content.data ip.1 ip.2) :=
  parseToolCallsGo_eq_filterMap content.data
    ((occurrences openMarker content.data 0).enum) calls h

theorem C2_tool_call_decoding_witness :
    parseToolCalls c2GoodThenBad
      = .ok [⟨"call_0", "function", ⟨.str "ls", "\x7b\x7d"⟩⟩]
    ∧ [(⟨"call_0", "function", ⟨.str "ls", "\x7b\x7d"⟩⟩ : ToolCall)]
      = ((occurrences openMarker c2GoodThenBad.data 0).enum).filterMap
          (fun ip => decodeBlock c2GoodThenBad.data ip.1 ip.2) :=
  ⟨rfl,
   C2_tool_call_decoding c2GoodThenBad
     [⟨"call_0", "function", ⟨.str "ls", "\x7b\x7d"⟩⟩] rfl⟩

/-- In the interpreter environment's batch loop, one call with unparsable
arguments makes the whole loop raise, however many calls around it decode and
execute fine. -/
theorem pyExecuteToolCallGo_append_error (runCode : Json → String)
    (bad : ToolCall) (hbad : jsonLoads bad.function.arguments = none) :
    ∀ (pre post : List ToolCall) (rs : List String),
      pyExecuteToolCallGo runCode pre = .ok rs →
      pyExecuteToolCallGo runCode (pre ++ bad :: post)
        = .error (.jsonDecodeError jsonDecodeErrMsg) := by
  intro pre
  induction pre with
  | nil =>
    intro post rs _
    simp [pyExecuteToolCallGo, hbad]
  | cons tc rest ih =>
    intro post rs h
    simp only [pyExecuteToolCallGo] at h
    simp only [List.cons_append, pyExecuteToolCallGo]
    split at h
    next => simp at h
    next =>
      split at h
      next =>
        split at h
        next => simp at h
        next =>
          rcases hrest : pyExecuteToolCallGo runCode rest with e | rs2
          · rw [hrest] at h
            simp [Except.map] at h
          · simp only [List.append_eq]
            rw [ih post rs2 hrest]
            rfl
      next =>
        rcases hrest : pyExecuteToolCallGo runCode rest with e | rs2
        · rw [hrest] at h
          simp [Except.map] at h
        · simp only [List.append_eq]
          rw [ih post rs2 hrest]
          rfl

/-- Same shape for the command-line environment's batch loop: the
JSONDecodeError escapes the loop. -/
theorem cmdExecuteToolCallGo_append_error
    (toolImpl : String → Json → Except PyExc String) (bad : ToolCall)
    (hbad : jsonLoads bad.function.arguments = none) :
    ∀ (pre post : List ToolCall) (rs : List String),
      cmdExecuteToolCallGo toolImpl pre = .ok rs →
      cmdExecuteToolCallGo toolImpl (pre ++ bad :: post)
        = .error (.jsonDecodeError jsonDecodeErrMsg) := by
  intro pre
  induction pre with
  | nil =>
    intro post rs _
    simp [cmdExecuteToolCallGo, hbad]
  | cons tc rest ih =>
    intro post rs h
    simp only [cmdExecuteToolCallGo] at h
    simp only [List.cons_append, cmdExecuteToolCallGo]
    split at h
    next => simp at h
    next =>
      split at h
      next => simp at h
      next =>
        rcases hrest : cmdExecuteToolCallGo toolImpl rest with e | rs2
        · rw [hrest] at h
          simp [Except.map] at h
        · simp only [List.append_eq]
          rw [ih post rs2 hrest]
          rfl

def c4PyCalls : List ToolCall :=
  [⟨"call_0", "function", ⟨.str "run_python_code", "\x7b\"code\":\"print(1)\"\x7d"⟩⟩,
   ⟨"call_1", "function", ⟨.str "run_python_code", "not json"⟩⟩]

def c4RunCode : Json → String := fun c => "RAN " ++ pyStr c

def c4CmdCalls : List ToolCall := [sampleCall, badArgsCall]

/-- C4 counterexample: a batch of two calls whose second has malformed
arguments. In the interpreter environment the batch result is one
"Tool execution error" string in which the first call's executed result
("RAN print(1)") does not occur anywhere — the healthy call's result is not
reported, refuting partial success; in the command-line environment
`_execute_tool_call` raises instead of producing any structured error
string. -/
theorem C4_counterexample :
    pyExecuteToolCall c4RunCode c4PyCalls
      = "Tool execution error: " ++ jsonDecodeErrMsg
    ∧ firstIndexOf? "RAN print(1)".data
        (pyExecuteToolCall c4RunCode c4PyCalls).data = none
    ∧ cmdExecuteToolCall okToolImpl c4CmdCalls
      = .error (.jsonDecodeError jsonDecodeErrMsg) := by
  refine ⟨rfl, ?_, rfl⟩
  decide

/-- C4 (amended): within one multi-call action, a tool call whose serialized
arguments are malformed JSON aborts the whole batch instead of failing alone:
in the interpreter environment the batch-level handler replaces the entire
batch result with a single structured error string (earlier calls' results
are discarded, later calls never run), and in the command-line environment
the exception escapes `_execute_tool_call` and `step`'s generic handler turns
it into an error observation with reward -0.1 and done = false; in both
families step itself still returns a triple rather than raising. -/
theorem C4_malformed_call_aborts_batch (runCode : Json → String)
    (toolImpl : String → Json → Except PyExc String) (verified : Bool)
    (preP postP preC postC : List ToolCall) (badP badC : ToolCall)
    (rs ss : List String)
    (hbadP : jsonLoads badP.function.arguments = none)
    (hbadC : jsonLoads badC.function.arguments = none)
    (hpreP : pyExecuteToolCallGo runCode preP = .ok rs)
    (hpreC : cmdExecuteToolCallGo toolImpl preC = .ok ss) :
    pyExecuteToolCall runCode (preP ++ badP :: postP)
      = "Tool execution error: " ++ jsonDecodeErrMsg
    ∧ cmdStep ⟨preC ++ badC :: postC, none⟩ none toolImpl verified
      = ("Execution error: " ++ jsonDecodeErrMsg, -(1 / 10 : Rat), false) := by
  constructor
  · unfold pyExecuteToolCall
    rw [pyExecuteToolCallGo_append_error runCode badP hbadP preP postP rs hpreP]
    rfl
  · have hTC : (Action.mk (preC ++ badC :: postC) none).isToolCall = true := by
      simp [Action.isToolCall]
    have hE : cmdExecuteToolCall toolImpl (preC ++ badC :: postC)
        = .error (.jsonDecodeError jsonDecodeErrMsg) := by
      unfold cmdExecuteToolCall
      rw [cmdExecuteToolCallGo_append_error toolImpl badC hbadC preC postC ss hpreC]
      rfl
    simp [cmdStep, hTC, hE, staticStepHandler, PyExc.isCoreTimeout, PyExc.msg]

theorem C4_malformed_call_aborts_batch_witness :
    pyExecuteToolCall c4RunCode c4PyCalls
      = "Tool execution error: " ++ jsonDecodeErrMsg
    ∧ cmdStep ⟨c4CmdCalls, none⟩ none okToolImpl false
      = ("Execution error: " ++ jsonDecodeErrMsg, -(1 / 10 : Rat), false) :=
  C4_malformed_call_aborts_batch c4RunCode okToolImpl false
    [⟨"call_0", "function", ⟨.str "run_python_code", "\x7b\"code\":\"print(1)\"\x7d"⟩⟩]
    [] [sampleCall] []
    ⟨"call_1", "function", ⟨.str "run_python_code", "not json"⟩⟩ badArgsCall
    ["RAN print(1)"] ["ran read_file"] rfl rfl rfl rfl

theorem C8_reset_discards_workspace_witness :
    0 < (⟨1, [(0, [])]⟩ : FileSys).nextId
    ∧ ∃ d2,
      (cmdReset ⟨some 0⟩
          (writeFileInWorkspace ⟨some 0⟩ ⟨1, [(0, [])]⟩ "a.txt") []).1.workspaceDir
        = some d2
      ∧ d2 ≠ 0
      ∧ (cmdReset ⟨some 0⟩
          (writeFileInWorkspace ⟨some 0⟩ ⟨1, [(0, [])]⟩ "a.txt") []).2.lookup 0
        = none
      ∧ (cmdReset ⟨some 0⟩
          (writeFileInWorkspace ⟨some 0⟩ ⟨1, [(0, [])]⟩ "a.txt") []).2.lookup d2
        = some []
      ∧ "a.txt" ∉ ((cmdReset ⟨some 0⟩
          (writeFileInWorkspace ⟨some 0⟩ ⟨1, [(0, [])]⟩ "a.txt") []).2.lookup
          d2).getD [] :=
  ⟨by decide,
   C8_reset_discards_workspace ⟨some 0⟩ ⟨1, [(0, [])]⟩ 0 "a.txt" []
     rfl (by decide) (by simp)⟩

end AgentGym
